import Mathlib

/-!
Verification of the minui-presenter core: the item-carousel navigation and
input/exit state machine (`handle_input`), the scroll-viewport controller
(`handle_input` scroll section and the recompute fragment of `draw_screen`),
the word-wrap layout engine (`draw_screen` tokenization and line packing,
`convert_escaped_newlines`, `strtrim`), and the background-color parsing
(`hex_to_sdl_color`, `ItemsState_New`).

Machine integers from the C source are modelled as `Int` (C `int`) and
`Nat` (C `size_t` and nonnegative pixel widths).  Comparisons that mix
`int` with `size_t` in C convert the `int` operand to unsigned; the helper
functions `intGeSize` and `intEqSizePred` model that conversion explicitly.
-/

namespace MinuiPresenter

/-! ### Exit codes (`enum list_result_t`) -/

def exitCodeSuccess : Int := 0
def exitCodeError : Int := 1
def exitCodeInactionButton : Int := 11
def exitCodeActionButton : Int := 12
def exitCodeCancelButton : Int := 13
def exitCodeConfirmButton : Int := 14
def exitCodeTimeout : Int := 124

/-! ### Data model (`struct Item`, `struct ItemsState`, `struct ScrollState`,
the modelled subset of `struct AppState`) -/

structure Item where
  background_color : Option String
  background_image : Option String
  image_exists : Bool
  text : List Char
  deriving Repr, DecidableEq

structure ItemsState where
  items : List Item
  item_count : Nat
  selected : Int
  deriving Repr, DecidableEq

structure ScrollState where
  scroll_position : Int
  content_height : Int
  viewport_height : Int
  needs_scroll : Bool
  scroll_to_bottom : Bool
  deriving Repr, DecidableEq

structure AppState where
  redraw : Int
  quitting : Int
  exit_code : Int
  action_button : String
  confirm_button : String
  cancel_button : String
  inaction_button : String
  quit_after_last_item : Bool
  no_wrap : Bool
  timeout_seconds : Int
  items_state : ItemsState
  scroll_state : ScrollState
  -- `volatile sig_atomic_t increment_item_list_index`
  pending_advance : Bool
  deriving Repr, DecidableEq

/-- C comparison `s >= n` where `s` is `int` and `n` is `size_t`:
the `int` is converted to unsigned, so a negative `s` compares large. -/
def intGeSize (s : Int) (n : Nat) : Bool :=
  decide (s < 0) || decide ((n : Int) ≤ s)

/-- C comparison `s == n - 1` where `s` is `int` and `n` is `size_t`
(64-bit): for `n ≥ 1` it holds iff `0 ≤ s` and `s = n - 1`; for `n = 0`
the subtraction wraps to `SIZE_MAX`, matched only by `s = -1`. -/
def intEqSizePred (s : Int) (n : Nat) : Bool :=
  if n = 0 then decide (s = -1)
  else decide (0 ≤ s) && decide (s = (n : Int) - 1)

/-! ### `handle_input`, split into its source sections -/

/-- The lazy background-image existence re-check at the top of
`handle_input` (`fs` models `access(path, F_OK) != -1`). -/
def itemRecheck (fs : String → Bool) (st : AppState) : AppState :=
  match st.items_state.items.get? st.items_state.selected.toNat with
  | some it =>
    match it.background_image with
    | some path =>
      if !it.image_exists && fs path then
        { st with
            items_state := { st.items_state with
              items := st.items_state.items.set st.items_state.selected.toNat
                { it with image_exists := true } },
            redraw := 1 }
      else st
    | none => st
  | none => st

/-- The `increment_item_list_index` (SIGUSR1 advance flag) consumption block
of `handle_input`.  Returns the new state and the `should_return` flag.
Note the source sets `redraw = 0` in the quit branch but then executes the
unconditional `state->redraw = 1` before unlocking, so `redraw` ends at 1. -/
def advanceStep (st : AppState) : AppState × Bool :=
  if intGeSize (st.items_state.selected + 1) st.items_state.item_count then
    if st.quit_after_last_item then
      ({ st with
          pending_advance := false
          items_state := { st.items_state with selected := st.items_state.selected + 1 }
          quitting := 1
          exit_code := exitCodeSuccess
          redraw := 1 }, true)
    else
      ({ st with
          pending_advance := false
          items_state := { st.items_state with selected := 0 }
          redraw := 1 }, false)
  else
    ({ st with
        pending_advance := false
        items_state := { st.items_state with selected := st.items_state.selected + 1 }
        redraw := 1 }, false)

/-- Role classification and terminal transitions for a released physical
button `b` (the `is_*_button_pressed` chain of `handle_input`).  The chain
compares `b` against the bound role buttons in the order
action, confirm, cancel, inaction; none of the branches consults a
visibility (`*_show`) flag.  The confirm branch prints the 1-based selected
index (`printf("%d\n", selected + 1)`) when the index is valid. -/
def buttonStep (b : String) (st : AppState) : AppState × List String :=
  if st.action_button = b then
    ({ st with redraw := 0, quitting := 1, exit_code := exitCodeActionButton }, [])
  else if st.confirm_button = b then
    ({ st with redraw := 0, quitting := 1, exit_code := exitCodeConfirmButton },
      if 0 ≤ st.items_state.selected ∧
          st.items_state.selected < (st.items_state.item_count : Int) then
        [toString (st.items_state.selected + 1) ++ "\n"]
      else [])
  else if st.cancel_button = b then
    ({ st with redraw := 0, quitting := 1, exit_code := exitCodeCancelButton }, [])
  else if st.inaction_button = b then
    ({ st with redraw := 0, quitting := 1, exit_code := exitCodeInactionButton }, [])
  else (st, [])

/-- The BTN_UP scroll branch of `handle_input`. -/
def scrollUpStep (speed : Nat) (st : AppState) : AppState :=
  if st.scroll_state.needs_scroll then
    { st with
        scroll_state := { st.scroll_state with
          scroll_position := max 0 (st.scroll_state.scroll_position - (speed : Int)),
          scroll_to_bottom := false },
        redraw := 1 }
  else st

/-- The BTN_DOWN scroll branch of `handle_input`. -/
def scrollDownStep (speed : Nat) (st : AppState) : AppState :=
  if st.scroll_state.needs_scroll then
    { st with
        scroll_state := { st.scroll_state with
          scroll_position :=
            min (st.scroll_state.content_height - st.scroll_state.viewport_height)
              (st.scroll_state.scroll_position + (speed : Int)),
          scroll_to_bottom := false },
        redraw := 1 }
  else st

/-- The BTN_LEFT navigation branch of `handle_input`; `jp` models
`PAD_justPressed(BTN_LEFT)` inside a `PAD_justRepeated(BTN_LEFT)` frame. -/
def navLeft (jp : Bool) (st : AppState) : AppState :=
  if decide (st.items_state.selected = 0) && !jp then { st with redraw := 0 }
  else
    if st.items_state.selected - 1 < 0 then
      if st.no_wrap then
        { st with
            items_state := { st.items_state with selected := 0 }
            redraw := 0 }
      else
        { st with
            items_state := { st.items_state with
              selected := (st.items_state.item_count : Int) - 1 }
            redraw := 1
            scroll_state := { st.scroll_state with
              scroll_position := 0, scroll_to_bottom := true } }
    else
      { st with
          items_state := { st.items_state with
            selected := st.items_state.selected - 1 }
          redraw := 1
          scroll_state := { st.scroll_state with
            scroll_position := 0, scroll_to_bottom := true } }

/-- The BTN_RIGHT navigation branch of `handle_input`.  Unlike BTN_LEFT it
never touches `scroll_state`. -/
def navRight (jp : Bool) (st : AppState) : AppState :=
  if intEqSizePred st.items_state.selected st.items_state.item_count && !jp then
    { st with redraw := 0 }
  else
    if intGeSize (st.items_state.selected + 1) st.items_state.item_count then
      if st.quit_after_last_item then
        { st with
            items_state := { st.items_state with
              selected := st.items_state.selected + 1 }
            redraw := 0
            quitting := 1
            exit_code := exitCodeSuccess }
      else if st.no_wrap then
        { st with
            items_state := { st.items_state with
              selected := (st.items_state.item_count : Int) - 1 }
            redraw := 0 }
      else
        { st with
            items_state := { st.items_state with selected := 0 }
            redraw := 1 }
    else
      { st with
          items_state := { st.items_state with
            selected := st.items_state.selected + 1 }
          redraw := 1 }

/-- One pad event per frame: a released face button, a (possibly repeated)
vertical scroll press, or a repeated horizontal navigation press carrying
its `PAD_justPressed` flag. -/
inductive PadEvent
  | idle
  | btnA
  | btnB
  | btnX
  | btnY
  | up
  | down
  | left (justPressed : Bool)
  | right (justPressed : Bool)
  deriving Repr, DecidableEq

/-- The physical button name matched by the `PAD_justReleased` chain. -/
def buttonName : PadEvent → Option String
  | PadEvent.btnA => some "A"
  | PadEvent.btnB => some "B"
  | PadEvent.btnX => some "X"
  | PadEvent.btnY => some "Y"
  | _ => none

/-- The scroll/navigation tail of `handle_input` for non-release events. -/
def scrollNavStep (speed : Nat) (ev : PadEvent) (st : AppState) : AppState :=
  match ev with
  | PadEvent.up => scrollUpStep speed st
  | PadEvent.down => scrollDownStep speed st
  | PadEvent.left jp => navLeft jp st
  | PadEvent.right jp => navRight jp st
  | _ => st

/-- `handle_input`, returning the mutated state and the lines printed to
standard output.  Order follows the source: lazy image re-check, the
`timeout_seconds < 0` early return, consumption of the pending advance
flag, button-release classification, then scroll/navigation. -/
def handleInput (fs : String → Bool) (speed : Nat) (ev : PadEvent)
    (st0 : AppState) : AppState × List String :=
  if (itemRecheck fs st0).timeout_seconds < 0 then (itemRecheck fs st0, [])
  else if (itemRecheck fs st0).pending_advance then
    if (advanceStep (itemRecheck fs st0)).2 then
      ((advanceStep (itemRecheck fs st0)).1, [])
    else
      match buttonName ev with
      | some b => buttonStep b (advanceStep (itemRecheck fs st0)).1
      | none => (scrollNavStep speed ev (advanceStep (itemRecheck fs st0)).1, [])
  else
    match buttonName ev with
    | some b => buttonStep b (itemRecheck fs st0)
    | none => (scrollNavStep speed ev (itemRecheck fs st0), [])

/-! ### The scroll recompute fragment of `draw_screen` -/

/-- Lines 1146–1155 of `draw_screen`: store the freshly computed viewport
and content heights, derive `needs_scroll`, and consume the one-shot
`scroll_to_bottom` flag — but only when `needs_scroll` holds; the flag is
not cleared otherwise, and the position is never re-clamped. -/
def recomputeScroll (contentH viewportH : Int) (st : AppState) : AppState :=
  if st.scroll_state.scroll_to_bottom && decide (viewportH < contentH) then
    { st with
        scroll_state := { st.scroll_state with
          viewport_height := viewportH
          content_height := contentH
          needs_scroll := decide (viewportH < contentH)
          scroll_position := contentH - viewportH
          scroll_to_bottom := false } }
  else
    { st with
        scroll_state := { st.scroll_state with
          viewport_height := viewportH
          content_height := contentH
          needs_scroll := decide (viewportH < contentH) } }

/-! ### Frame operations and the main loop -/

/-- An externally observable operation: the SIGUSR1 handler setting the
advance flag, one `handle_input` call with a given pad event, or the
scroll recompute performed by `draw_screen` with the layout's content
height and the frame's viewport height.  `handle_input` and `draw_screen`
run only while the main loop has not started quitting. -/
inductive FrameOp
  | signal
  | input (ev : PadEvent)
  | frame (contentH viewportH : Int)
  deriving Repr, DecidableEq

def stepOp (fs : String → Bool) (speed : Nat) (st : AppState) : FrameOp → AppState
  | FrameOp.signal => { st with pending_advance := true }
  | FrameOp.input ev => if st.quitting = 0 then (handleInput fs speed ev st).1 else st
  | FrameOp.frame c v => if st.quitting = 0 then recomputeScroll c v st else st

def runOps (fs : String → Bool) (speed : Nat) (st : AppState)
    (ops : List FrameOp) : AppState :=
  ops.foldl (stepOp fs speed) st

/-! ### Text layout engine (`draw_screen` lines 1028–1141,
`convert_escaped_newlines`, `strtrim`) -/

/-- `convert_escaped_newlines`: rewrite each literal two-character
sequence `\\` `n` into a real line feed, in place, left to right. -/
def convertEscapedNewlines : List Char → List Char
  | '\\' :: 'n' :: rest => '\n' :: convertEscapedNewlines rest
  | c :: rest => c :: convertEscapedNewlines rest
  | [] => []

/-- The character class of C `isspace` in the default locale. -/
def isSpaceC (c : Char) : Bool :=
  c = ' ' || c = '\t' || c = '\n' || c = '\x0b' || c = '\x0c' || c = '\r'

/-- `strtrim`: drop trailing then leading `isspace` characters. -/
def strtrim (l : List Char) : List Char :=
  ((l.reverse.dropWhile isSpaceC).reverse).dropWhile isSpaceC

/-- `strtok_r` token stream: the maximal nonempty runs of characters not
satisfying `p` (leading, trailing and repeated delimiters are skipped). -/
def strtokAux (p : Char → Bool) : List Char → List Char → List (List Char)
  | [], cur => if cur = [] then [] else [cur.reverse]
  | c :: rest, cur =>
    if p c then
      if cur = [] then strtokAux p rest []
      else cur.reverse :: strtokAux p rest []
    else strtokAux p rest (c :: cur)

def strtok (p : Char → Bool) (l : List Char) : List (List Char) :=
  strtokAux p l []

/-- `struct Message`: one whitespace-delimited word with its measured
pixel width and the flag marking that it follows a hard line break. -/
structure Message where
  text : List Char
  width : Nat
  is_newline : Bool
  deriving Repr, DecidableEq

/-- `MAX_MESSAGES` -/
def maxMessages : Nat := 512

/-- The words of one `strtok_r`-produced line: split on `' '`, `strtrim`
each token, and drop tokens that trim to empty. -/
def lineWords (l : List Char) : List (List Char) :=
  ((strtok (fun c => c = ' ') l).map strtrim).filter (fun w => w ≠ [])

/-- The word-tokenization loop of `draw_screen` (lines 1038–1078): split
the normalized text on real line breaks (at most `MAX_MESSAGES` line
tokens are consumed), split each line into words, and mark the first word
of every line after the first (`!first_line && first_word_in_line`).
`measure` models `TTF_SizeUTF8` on the word.  At most 1024 words are
collected (`word_count < 1024`). -/
def tokenizeWords (measure : List Char → Nat) (text : List Char) : List Message :=
  let ls := (strtok (fun c => c = '\n') text).take maxMessages
  let tagged := (ls.enum.map (fun p =>
    (lineWords p.2).enum.map (fun q =>
      { text := q.2, width := measure q.2,
        is_newline := (p.1 != 0) && (q.1 == 0) : Message }))).flatten
  tagged.take 1024

/-- One assembled display line: the words placed on it and the
accumulated width stored in `messages[i].width`. -/
structure LayoutLine where
  words : List Message
  width : Nat
  deriving Repr, DecidableEq

/-- The greedy line-packing loop of `draw_screen` (lines 1091–1136).
`closed` holds the lines before `current_message_index`; `cur` is the line
under construction.  Faithful points: the loop stops once
`current_message_index ≥ MAX_MESSAGES - 1`; a word whose `is_newline` flag
is set always closes the current line; a word arriving at a line whose
stored width is 0 overwrites it; otherwise the word is appended only when
`width + letter_width + word_width ≤ avail`. -/
def packWords (letterW avail : Nat) :
    List Message → List LayoutLine → LayoutLine → List LayoutLine
  | [], closed, cur => closed ++ [cur]
  | w :: ws, closed, cur =>
    if maxMessages - 1 ≤ closed.length then closed ++ [cur]
    else if w.is_newline then
      packWords letterW avail ws (closed ++ [cur]) ⟨[w], w.width⟩
    else if cur.width = 0 then
      packWords letterW avail ws closed ⟨[w], w.width⟩
    else if cur.width + w.width + letterW ≤ avail then
      packWords letterW avail ws closed ⟨cur.words ++ [w], cur.width + w.width + letterW⟩
    else
      packWords letterW avail ws (closed ++ [cur]) ⟨[w], w.width⟩

/-- The full layout pipeline for one item text: normalize escaped breaks,
tokenize into measured words, pack greedily.  `letterW` is the measured
width of the reference glyph `"A"`; `avail` is
`FIXED_WIDTH - 2 * message_padding`. -/
def layoutLines (measure : List Char → Nat) (letterW avail : Nat)
    (text : List Char) : List LayoutLine :=
  packWords letterW avail
    (tokenizeWords measure (convertEscapedNewlines text)) [] ⟨[], 0⟩

/-! ### The fixed 1024-byte text buffer of `draw_screen`
(`char original_message[1024]; strncpy(original_message, text, 1024)`) -/

/-- Result of `strncpy(dst, src, 1024)` into the 1024-byte
`original_message` buffer: the characters written, and whether the buffer
holds a terminating NUL (strncpy writes one only when the source is
shorter than the bound). -/
structure CopyResult where
  content : List Char
  nullTerminated : Bool
  deriving Repr, DecidableEq

def strncpy1024 (src : List Char) : CopyResult :=
  ⟨src.take 1024, decide (src.length < 1024)⟩

/-! ### Background color parsing (`hex_to_sdl_color`) -/

structure SdlColor where
  r : Nat
  g : Nat
  b : Nat
  a : Nat
  deriving Repr, DecidableEq

def hexDigitVal (c : Char) : Option Nat :=
  if '0' ≤ c ∧ c ≤ '9' then some (c.toNat - '0'.toNat)
  else if 'a' ≤ c ∧ c ≤ 'f' then some (c.toNat - 'a'.toNat + 10)
  else if 'A' ≤ c ∧ c ≤ 'F' then some (c.toNat - 'A'.toNat + 10)
  else none

/-- One `%02x` conversion of `sscanf` (glibc semantics): skip leading
whitespace (not counted against the field width), then match an
optionally signed hexadecimal numeral within a two-character field:
a `+` or `-` sign followed by exactly one hex digit (the sign consumes
one character of the width), the bare prefix `0x`/`0X` (both characters
consumed, converted value 0), two hex digits, or a single hex digit.
The conversion fails when the first non-space character starts none of
these forms (e.g. a bare sign, or a sign followed by a non-digit).
The value is returned as a signed integer; a negative value wraps
modulo 2^32 in the `unsigned int` the program stores it in, and only
its residue modulo 256 reaches the 8-bit color channel. -/
def scanHex2 (s : List Char) : Option (Int × List Char) :=
  match s.dropWhile isSpaceC with
  | [] => none
  | c :: rest =>
    if c = '+' ∨ c = '-' then
      match rest with
      | [] => none
      | c2 :: rest2 =>
        match hexDigitVal c2 with
        | none => none
        | some d => some (if c = '-' then -(d : Int) else (d : Int), rest2)
    else
      match hexDigitVal c with
      | none => none
      | some d =>
        match rest with
        | [] => some ((d : Int), [])
        | c2 :: rest2 =>
          if c = '0' ∧ (c2 = 'x' ∨ c2 = 'X') then some (0, rest2)
          else
            match hexDigitVal c2 with
            | none => some ((d : Int), c2 :: rest2)
            | some d2 => some (((16 * d + d2 : Nat) : Int), rest2)

/-- `sscanf(hex, "%02x%02x%02x", &r, &g, &b) == 3`. -/
def scanThreeHex (s : List Char) : Option (Int × Int × Int) :=
  match scanHex2 s with
  | none => none
  | some (r, s1) =>
    match scanHex2 s1 with
    | none => none
    | some (g, s2) =>
      match scanHex2 s2 with
      | none => none
      | some (b, _) => some (r, g, b)

/-- The `if (hex[0] == '#') hex++;` prefix skip of `hex_to_sdl_color`. -/
def stripHash : List Char → List Char
  | '#' :: rest => rest
  | other => other

/-- `hex_to_sdl_color`: skip one leading `'#'`, then assign the three
channels only when all three `%02x` conversions succeed; otherwise the
color stays at the initializer `{0, 0, 0, 255}`.  Each converted value
passes through the program's `int` and is narrowed to the `Uint8`
channel, i.e. reduced modulo 256. -/
def hexToSdlColor (hex : List Char) : SdlColor :=
  match scanThreeHex (stripHash hex) with
  | some (r, g, b) => ⟨(r % 256).toNat, (g % 256).toNat, (b % 256).toNat, 255⟩
  | none => ⟨0, 0, 0, 255⟩

/-- The background-color fill of `draw_screen` (lines 911–919): a missing
`background_color` falls back to the `"#000000"` default before parsing. -/
def renderBackgroundColor (bc : Option (List Char)) : SdlColor :=
  hexToSdlColor (bc.getD ("#000000".toList))

/-! ### The per-item validation of `ItemsState_New` (lines 399–535) -/

/-- The fields `ItemsState_New` reads from one JSON item object.
`show_pill` carries the `json_object_get_boolean` result when the key is
present (1, 0, or -1 for a non-boolean); `horizontal_alignment`
distinguishes key-absent, key-present-but-not-a-string, and string. -/
structure JsonItem where
  text : Option String
  background_image : Option String
  background_color : Option String
  show_pill : Option Int
  alignment : Option String
  horizontal_alignment : Option (Option String)
  line_spacing : Option Int
  deriving Repr, DecidableEq

inductive MessageAlignment
  | top
  | middle
  | bottom
  deriving Repr, DecidableEq

inductive HorizontalAlignment
  | left
  | center
  | right
  deriving Repr, DecidableEq

structure LoadedItem where
  text : String
  background_image : Option String
  image_exists : Bool
  background_color : Option String
  show_pill : Bool
  alignment : MessageAlignment
  horizontal_alignment : HorizontalAlignment
  line_spacing : Int
  deriving Repr, DecidableEq

/-- One iteration of the item loop of `ItemsState_New`: every validation
that can abort the whole load (`return NULL`) yields `none`.  The
`background_color` string is stored verbatim, never inspected. -/
def loadItem (fs : String → Bool)
    (defaultBackgroundImage : Option String)
    (defaultBackgroundColor : Option String)
    (defaultShowPill : Bool) (defaultAlignment : MessageAlignment)
    (defaultLineSpacing : Int) (j : JsonItem) : Option LoadedItem :=
  match j.text with
  | none => none
  | some text =>
    let bgImage := match j.background_image with
      | some img => some img
      | none => defaultBackgroundImage
    let imgExists := match j.background_image with
      | some img => fs img
      | none => match defaultBackgroundImage with
        | some img => fs img
        | none => false
    let bgColor := match j.background_color with
      | some c => some c
      | none => defaultBackgroundColor
    let showPill? : Option Bool := match j.show_pill with
      | none => some defaultShowPill
      | some 1 => some true
      | some 0 => some false
      | some _ => none
    match showPill? with
    | none => none
    | some showPill =>
      let alignment? : Option MessageAlignment := match j.alignment with
        | none => some defaultAlignment
        | some "top" => some MessageAlignment.top
        | some "bottom" => some MessageAlignment.bottom
        | some "middle" => some MessageAlignment.middle
        | some _ => none
      match alignment? with
      | none => none
      | some alignment =>
        let horiz? : Option HorizontalAlignment := match j.horizontal_alignment with
          | none => some HorizontalAlignment.center
          | some none => some HorizontalAlignment.center
          | some (some "left") => some HorizontalAlignment.left
          | some (some "right") => some HorizontalAlignment.right
          | some (some "center") => some HorizontalAlignment.center
          | some (some _) => none
        match horiz? with
        | none => none
        | some horiz =>
          let spacing? : Option Int := match j.line_spacing with
            | none => some defaultLineSpacing
            | some s => if 0 ≤ s then some s else none
          match spacing? with
          | none => none
          | some spacing =>
            some { text := text, background_image := bgImage,
                   image_exists := imgExists, background_color := bgColor,
                   show_pill := showPill, alignment := alignment,
                   horizontal_alignment := horiz, line_spacing := spacing }

/-! ### Invariants and spec-side predicates -/

/-- Selection invariant: the cursor is within `[0, item_count]`, and
strictly below `item_count` while the run state is still `running`
(`quitting = 0`).  The slack at `item_count` is exactly the value left
behind by a quit-after-last transition. -/
def selInv (st : AppState) : Prop :=
  0 ≤ st.items_state.selected ∧
  st.items_state.selected ≤ (st.items_state.item_count : Int) ∧
  (st.quitting = 0 → st.items_state.selected < (st.items_state.item_count : Int))

/-- Scroll invariant that holds for arbitrary operation sequences: the
position is nonnegative, and whenever `needs_scroll` is stored as true the
stored heights satisfy `viewport < content`. -/
def posNonneg (st : AppState) : Prop :=
  0 ≤ st.scroll_state.scroll_position ∧
  (st.scroll_state.needs_scroll = true →
    st.scroll_state.viewport_height < st.scroll_state.content_height)

/-- Full scroll clamp relative to a fixed layout dimension pair `(c, v)`:
position lies in `[0, max 0 (c - v)]`, and a stored `needs_scroll` can
only come from a recompute with exactly these dimensions. -/
def scrollInvFixed (c v : Int) (st : AppState) : Prop :=
  0 ≤ st.scroll_state.scroll_position ∧
  st.scroll_state.scroll_position ≤ max 0 (c - v) ∧
  (st.scroll_state.needs_scroll = true →
    st.scroll_state.content_height = c ∧ st.scroll_state.viewport_height = v ∧ v < c)

/-- An operation whose recompute (if any) uses the dimensions `(c, v)`. -/
def opUsesDims (c v : Int) : FrameOp → Prop
  | FrameOp.frame c' v' => c' = c ∧ v' = v
  | _ => True

/-- A layout line respects the available width, or carries exactly one
word whose own width overflows it. -/
def lineOk (avail : Nat) (l : LayoutLine) : Prop :=
  l.width ≤ avail ∨ (l.words.length = 1 ∧ avail < l.width)

/-- The selection/run-state observables compared when relating the
advance-signal path with a right-navigation input. -/
def navOutcome (st : AppState) : Int × Int × Int :=
  (st.items_state.selected, st.quitting, st.exit_code)

/-- The claim's literal reading of a parseable background color: exactly
six hexadecimal digits after an optional leading `'#'`. -/
def claimSixHexDigits (s : List Char) : Bool :=
  let t := stripHash s
  (t.length == 6) && t.all (fun c => (hexDigitVal c).isSome)

/-! ### Concrete states used by witnesses and counterexamples -/

/-- A plain item with no background image. -/
def plainItem : Item :=
  { background_color := none, background_image := none,
    image_exists := true, text := ['x'] }

/-- The scroll state `main` starts from
(`.scroll_state = {.scroll_to_bottom = true}`). -/
def initialScroll : ScrollState :=
  { scroll_position := 0, content_height := 0, viewport_height := 0,
    needs_scroll := false, scroll_to_bottom := true }

/-- A baseline running state: one item, confirm bound to A, no timeout. -/
def baseState : AppState :=
  { redraw := 1, quitting := 0, exit_code := 0,
    action_button := "", confirm_button := "A",
    cancel_button := "", inaction_button := "",
    quit_after_last_item := false, no_wrap := false, timeout_seconds := 0,
    items_state := { items := [plainItem], item_count := 1, selected := 0 },
    scroll_state := initialScroll, pending_advance := false }

/-- Two items, cursor on the last one, NoWrap policy, no buttons bound. -/
def noWrapLastState : AppState :=
  { baseState with
      confirm_button := ""
      no_wrap := true
      items_state := { items := [plainItem, plainItem], item_count := 2, selected := 1 } }

/-- Two items, cursor on the first one, wrap policy, no buttons bound. -/
def twoItemState : AppState :=
  { baseState with
      confirm_button := ""
      items_state := { items := [plainItem, plainItem], item_count := 2, selected := 0 } }

/-- Display-only state: negative timeout with a pending advance signal. -/
def displayOnlyState : AppState :=
  { twoItemState with timeout_seconds := -1, pending_advance := true }

/-- One item, quit-after-last set, no buttons bound. -/
def quitAfterLastState : AppState :=
  { baseState with confirm_button := "", quit_after_last_item := true }

/-- Two items with a mid-scroll position and no pending jump flag. -/
def scrolledState : AppState :=
  { twoItemState with
      scroll_state := { scroll_position := 5, content_height := 0,
                        viewport_height := 0, needs_scroll := false,
                        scroll_to_bottom := false } }

/-- Left-navigation witness state: cursor on the second item, stale
scroll position 7. -/
def leftNavState : AppState :=
  { twoItemState with
      items_state := { twoItemState.items_state with selected := 1 }
      scroll_state := { scroll_position := 7, content_height := 0,
                        viewport_height := 0, needs_scroll := false,
                        scroll_to_bottom := false } }

/-- An item whose background image is still absent. -/
def pendingImageItem : Item :=
  { background_color := none, background_image := some "bg.png",
    image_exists := false, text := ['x'] }

/-- Display-only state whose selected item waits for its image. -/
def displayOnlyImageState : AppState :=
  { displayOnlyState with
      items_state := { items := [pendingImageItem], item_count := 1, selected := 0 } }

/-! ## Layout engine lemmas -/

lemma lineOk_single (avail : Nat) (w : Message) :
    lineOk avail ⟨[w], w.width⟩ := by
  rcases le_or_lt w.width avail with h | h
  · exact Or.inl h
  · exact Or.inr ⟨rfl, h⟩

lemma packWords_lineOk (letterW avail : Nat) :
    ∀ (ws : List Message) (closed : List LayoutLine) (cur : LayoutLine),
      (∀ l ∈ closed, lineOk avail l) → lineOk avail cur →
      ∀ l ∈ packWords letterW avail ws closed cur, lineOk avail l := by
  intro ws
  induction ws with
  | nil =>
    intro closed cur hc hcur l hl
    rw [packWords] at hl
    rcases List.mem_append.1 hl with h | h
    · exact hc l h
    · simp only [List.mem_singleton] at h
      simpa [h] using hcur
  | cons w ws ih =>
    intro closed cur hc hcur l hl
    have hclosed : ∀ l' ∈ closed ++ [cur], lineOk avail l' := by
      intro l' hl'
      rcases List.mem_append.1 hl' with h | h
      · exact hc l' h
      · simp only [List.mem_singleton] at h
        simpa [h] using hcur
    rw [packWords] at hl
    split at hl
    · rcases List.mem_append.1 hl with h | h
      · exact hc l h
      · simp only [List.mem_singleton] at h
        simpa [h] using hcur
    · split at hl
      · exact ih _ _ hclosed (lineOk_single avail w) l hl
      · split at hl
        · exact ih _ _ hc (lineOk_single avail w) l hl
        · split at hl
          · next hfit => exact ih _ _ hc (Or.inl hfit) l hl
          · exact ih _ _ hclosed (lineOk_single avail w) l hl

lemma packWords_tail_no_newline (letterW avail : Nat) :
    ∀ (ws : List Message) (closed : List LayoutLine) (cur : LayoutLine),
      (∀ l ∈ closed, ∀ m ∈ l.words.tail, m.is_newline = false) →
      (∀ m ∈ cur.words.tail, m.is_newline = false) →
      ∀ l ∈ packWords letterW avail ws closed cur,
        ∀ m ∈ l.words.tail, m.is_newline = false := by
  intro ws
  induction ws with
  | nil =>
    intro closed cur hc hcur l hl
    rw [packWords] at hl
    rcases List.mem_append.1 hl with h | h
    · exact hc l h
    · simp only [List.mem_singleton] at h
      subst h; exact hcur
  | cons w ws ih =>
    intro closed cur hc hcur l hl
    have hclosed : ∀ l' ∈ closed ++ [cur], ∀ m ∈ l'.words.tail, m.is_newline = false := by
      intro l' hl'
      rcases List.mem_append.1 hl' with h | h
      · exact hc l' h
      · simp only [List.mem_singleton] at h
        subst h; exact hcur
    rw [packWords] at hl
    by_cases hcap : maxMessages - 1 ≤ closed.length
    · rw [if_pos hcap] at hl
      rcases List.mem_append.1 hl with h | h
      · exact hc l h
      · simp only [List.mem_singleton] at h
        subst h; exact hcur
    · rw [if_neg hcap] at hl
      by_cases hnl : w.is_newline = true
      · rw [if_pos hnl] at hl
        exact ih _ _ hclosed (by simp) l hl
      · rw [if_neg hnl] at hl
        have hw : w.is_newline = false := by simpa using hnl
        by_cases hz : cur.width = 0
        · rw [if_pos hz] at hl
          exact ih _ _ hc (by simp) l hl
        · rw [if_neg hz] at hl
          by_cases hfit : cur.width + w.width + letterW ≤ avail
          · rw [if_pos hfit] at hl
            refine ih _ _ hc ?_ l hl
            intro m hm
            rcases hcw : cur.words with _ | ⟨a, as⟩ <;> rw [hcw] at hm
            · simp at hm
            · simp only [List.cons_append, List.tail_cons] at hm
              rcases List.mem_append.1 hm with h | h
              · exact hcur m (by rw [hcw]; simpa using h)
              · simp only [List.mem_singleton] at h
                subst h; exact hw
          · rw [if_neg hfit] at hl
            exact ih _ _ hclosed (by simp) l hl

/-! ## Claim C7 -/

/-- C7: for every input text and available width, each line produced by
the greedy word-packing layout has accumulated width (word widths plus one
reference-glyph gap per inter-word join, as maintained in
`messages[i].width`) at most the available width, except a line consisting
of exactly one word whose own width exceeds the available width, which is
placed alone and allowed to overflow. -/
theorem C7_wrap_correctness (measure : List Char → Nat) (letterW avail : Nat)
    (text : List Char) :
    ∀ l ∈ layoutLines measure letterW avail text,
      l.width ≤ avail ∨ (l.words.length = 1 ∧ avail < l.width) :=
  fun l hl =>
    packWords_lineOk letterW avail
      (tokenizeWords measure (convertEscapedNewlines text)) [] ⟨[], 0⟩
      (by simp) (Or.inl (Nat.zero_le _)) l hl

theorem C7_wrap_correctness_witness :
    (⟨[⟨['a'], 1, false⟩], 1⟩ : LayoutLine).width ≤ 10 ∨
      ((⟨[⟨['a'], 1, false⟩], 1⟩ : LayoutLine).words.length = 1 ∧
        10 < (⟨[⟨['a'], 1, false⟩], 1⟩ : LayoutLine).width) :=
  C7_wrap_correctness (fun _ => 1) 1 10 ['a'] ⟨[⟨['a'], 1, false⟩], 1⟩ (by decide)

/-! ## Claim C8 -/

/-- C8: a hard line break always forces the following word to begin a new
layout line — in every produced line, only the first word can carry the
`is_newline` flag — and the message `"a\nb\nc"` (with the literal
two-character escapes, or with real newlines) lays out as exactly three
lines containing `a`, `b`, `c` in that order, for every measure function,
reference-glyph width and available width. -/
theorem C8_break_fidelity :
    (∀ (measure : List Char → Nat) (letterW avail : Nat) (text : List Char),
      ∀ l ∈ layoutLines measure letterW avail text,
        ∀ m ∈ l.words.tail, m.is_newline = false) ∧
    (∀ (measure : List Char → Nat) (letterW avail : Nat),
      (layoutLines measure letterW avail
          ['a', '\\', 'n', 'b', '\\', 'n', 'c']).map
        (fun l => l.words.map Message.text) = [[['a']], [['b']], [['c']]]) ∧
    (∀ (measure : List Char → Nat) (letterW avail : Nat),
      (layoutLines measure letterW avail ['a', '\n', 'b', '\n', 'c']).map
        (fun l => l.words.map Message.text) = [[['a']], [['b']], [['c']]]) := by
  refine ⟨?_, ?_, ?_⟩
  · intro measure letterW avail text l hl m hm
    exact packWords_tail_no_newline letterW avail
      (tokenizeWords measure (convertEscapedNewlines text)) [] ⟨[], 0⟩
      (by simp) (by simp) l hl m hm
  · intro measure letterW avail
    rfl
  · intro measure letterW avail
    rfl

theorem C8_break_fidelity_witness :
    (⟨['b'], 1, false⟩ : Message).is_newline = false :=
  C8_break_fidelity.1 (fun _ => 1) 1 10 ['a', ' ', 'b']
    ⟨[⟨['a'], 1, false⟩, ⟨['b'], 1, false⟩], 3⟩ (by decide)
    ⟨['b'], 1, false⟩ (by decide)

/-! ## Claim C9 -/

set_option maxRecDepth 100000 in
/-- C9: the item text is copied into the fixed 1024-byte
`original_message` buffer before normalization and word splitting, and at
most 1024 words are tokenized; however, for a text of 1024 bytes or more
`strncpy` fills the whole buffer without writing a terminating NUL, so the
copy is not the claimed NUL-terminated 1023-byte truncation — evaluating
the copy at a 1024-byte text exhibits the unterminated buffer. -/
theorem C9_fixed_buffer :
    (strncpy1024 (List.replicate 1024 'a')).nullTerminated = false ∧
    (strncpy1024 (List.replicate 1024 'a')).content.length = 1024 ∧
    (∀ src : List Char, 1023 < src.length →
      (strncpy1024 src).nullTerminated = false) ∧
    (∀ (measure : List Char → Nat) (text : List Char),
      (tokenizeWords measure text).length ≤ 1024) := by
  refine ⟨?_, ?_, ?_, ?_⟩
  · simp [strncpy1024, List.length_replicate]
  · simp [strncpy1024, List.length_take, List.length_replicate]
  · intro src h
    simp only [strncpy1024, decide_eq_false_iff_not, not_lt]
    omega
  · intro measure text
    simp only [tokenizeWords]
    exact (List.length_take _ _).le.trans (Nat.min_le_left _ _)

theorem C9_fixed_buffer_witness :
    (strncpy1024 (List.replicate 1500 'a')).nullTerminated = false :=
  C9_fixed_buffer.2.2.1 (List.replicate 1500 'a')
    (by rw [List.length_replicate]; norm_num)

/-! ## Claim C10 -/

/-- C10 counterexample: neither `"aabbccdd"` (eight hex digits) nor
`"-f-f-f"` (signed groups) parses as six hex digits after an optional
leading `'#'`, yet `hex_to_sdl_color` renders the first as
(0xaa, 0xbb, 0xcc) and the second as (241, 241, 241) — each `%02x`
accepts an optionally signed numeral whose negative value wraps into the
`Uint8` channel — refuting the claim that every string outside the
six-digit form is rendered black. -/
theorem C10_counterexample :
    claimSixHexDigits ['a', 'a', 'b', 'b', 'c', 'c', 'd', 'd'] = false ∧
    hexToSdlColor ['a', 'a', 'b', 'b', 'c', 'c', 'd', 'd'] =
      ⟨0xaa, 0xbb, 0xcc, 255⟩ ∧
    hexToSdlColor ['a', 'a', 'b', 'b', 'c', 'c', 'd', 'd'] ≠ ⟨0, 0, 0, 255⟩ ∧
    claimSixHexDigits ['-', 'f', '-', 'f', '-', 'f'] = false ∧
    hexToSdlColor ['-', 'f', '-', 'f', '-', 'f'] = ⟨241, 241, 241, 255⟩ ∧
    hexToSdlColor ['-', 'f', '-', 'f', '-', 'f'] ≠ ⟨0, 0, 0, 255⟩ := by
  refine ⟨by decide, by decide, by decide, by decide, by decide, by decide⟩

/-- C10 (amended): catalog loading never fails because of the
`background_color` value — `ItemsState_New` stores it without inspecting
it — and rendering is total over it: `hex_to_sdl_color` yields black
exactly when `sscanf` cannot extract three `%02x` groups — each, after
optional whitespace, an optionally signed one-or-two-hex-digit numeral
within a two-character field, with a bare `0x`/`0X` prefix converting as
zero — after an optional leading `'#'`; when the groups are extracted,
their values reduced modulo 256 become the color channels, so strings
outside the strict six-digit form (extra trailing characters, signed or
whitespace-separated groups) may still parse and render non-black. -/
theorem C10_background_color_total :
    (∀ (fs : String → Bool) (dbi dbc : Option String) (dsp : Bool)
        (da : MessageAlignment) (dls : Int) (j : JsonItem) (bc : Option String),
      (loadItem fs dbi dbc dsp da dls { j with background_color := bc }).isSome =
        (loadItem fs dbi dbc dsp da dls j).isSome) ∧
    (∀ s : List Char, scanThreeHex (stripHash s) = none →
      hexToSdlColor s = ⟨0, 0, 0, 255⟩) ∧
    (∀ (s : List Char) (r g b : Int),
      scanThreeHex (stripHash s) = some (r, g, b) →
      hexToSdlColor s =
        ⟨(r % 256).toNat, (g % 256).toNat, (b % 256).toNat, 255⟩) := by
  refine ⟨?_, ?_, ?_⟩
  · intro fs dbi dbc dsp da dls j bc
    cases j with
    | mk t bi obc sp al ha ls =>
      unfold loadItem
      cases t with
      | none => rfl
      | some text =>
        dsimp only
        repeat' split
        all_goals rfl
  · intro s h
    simp [hexToSdlColor, h]
  · intro s r g b h
    simp [hexToSdlColor, h]

theorem C10_background_color_total_witness :
    hexToSdlColor ['z', 'z'] = ⟨0, 0, 0, 255⟩ ∧
    hexToSdlColor ['#', 'f', 'f', '0', '0', '8', '0'] = ⟨255, 0, 128, 255⟩ :=
  ⟨C10_background_color_total.2.1 ['z', 'z'] (by decide),
   C10_background_color_total.2.2 ['#', 'f', 'f', '0', '0', '8', '0']
     255 0 128 (by decide)⟩

/-! ## State-machine helper lemmas -/

lemma itemRecheck_eq_or (fs : String → Bool) (st : AppState) :
    itemRecheck fs st = st ∨
    ∃ l, itemRecheck fs st =
      { st with
          items_state := { st.items_state with items := l }
          redraw := 1 } := by
  unfold itemRecheck
  split
  · split
    · split
      · exact Or.inr ⟨_, rfl⟩
      · exact Or.inl rfl
    · exact Or.inl rfl
  · exact Or.inl rfl

lemma itemRecheck_preserves (fs : String → Bool) (st : AppState) :
    (itemRecheck fs st).items_state.selected = st.items_state.selected ∧
    (itemRecheck fs st).items_state.item_count = st.items_state.item_count ∧
    (itemRecheck fs st).quitting = st.quitting ∧
    (itemRecheck fs st).exit_code = st.exit_code ∧
    (itemRecheck fs st).pending_advance = st.pending_advance ∧
    (itemRecheck fs st).timeout_seconds = st.timeout_seconds ∧
    (itemRecheck fs st).scroll_state = st.scroll_state ∧
    (itemRecheck fs st).action_button = st.action_button ∧
    (itemRecheck fs st).confirm_button = st.confirm_button ∧
    (itemRecheck fs st).cancel_button = st.cancel_button ∧
    (itemRecheck fs st).inaction_button = st.inaction_button ∧
    (itemRecheck fs st).no_wrap = st.no_wrap ∧
    (itemRecheck fs st).quit_after_last_item = st.quit_after_last_item := by
  rcases itemRecheck_eq_or fs st with h | ⟨l, h⟩ <;> simp [h]

lemma advanceStep_scroll (st : AppState) :
    (advanceStep st).1.scroll_state = st.scroll_state := by
  unfold advanceStep
  repeat' split
  all_goals rfl

lemma buttonStep_scroll (b : String) (st : AppState) :
    (buttonStep b st).1.scroll_state = st.scroll_state := by
  unfold buttonStep
  repeat' split
  all_goals rfl

lemma buttonStep_items (b : String) (st : AppState) :
    (buttonStep b st).1.items_state = st.items_state := by
  unfold buttonStep
  repeat' split
  all_goals rfl

lemma advanceStep_items_count (st : AppState) :
    (advanceStep st).1.items_state.item_count = st.items_state.item_count := by
  unfold advanceStep
  repeat' split
  all_goals rfl

lemma scrollUpStep_items (speed : Nat) (st : AppState) :
    (scrollUpStep speed st).items_state = st.items_state ∧
    (scrollUpStep speed st).quitting = st.quitting := by
  unfold scrollUpStep
  split <;> simp

lemma scrollDownStep_items (speed : Nat) (st : AppState) :
    (scrollDownStep speed st).items_state = st.items_state ∧
    (scrollDownStep speed st).quitting = st.quitting := by
  unfold scrollDownStep
  split <;> simp

lemma navLeft_items_count (jp : Bool) (st : AppState) :
    (navLeft jp st).items_state.item_count = st.items_state.item_count ∧
    (navLeft jp st).quitting = st.quitting := by
  unfold navLeft
  repeat' split
  all_goals simp

lemma navRight_items_count (jp : Bool) (st : AppState) :
    (navRight jp st).items_state.item_count = st.items_state.item_count := by
  unfold navRight
  repeat' split
  all_goals simp

lemma navRight_scroll (jp : Bool) (st : AppState) :
    (navRight jp st).scroll_state = st.scroll_state := by
  unfold navRight
  repeat' split
  all_goals rfl

lemma recomputeScroll_preserves (c v : Int) (st : AppState) :
    (recomputeScroll c v st).items_state = st.items_state ∧
    (recomputeScroll c v st).quitting = st.quitting ∧
    (recomputeScroll c v st).exit_code = st.exit_code ∧
    (recomputeScroll c v st).pending_advance = st.pending_advance := by
  unfold recomputeScroll
  split <;> simp

/-- Selection-invariant preservation for the SIGUSR1 advance block. -/
lemma advanceStep_selInv (st : AppState) (h : selInv st) (hq : st.quitting = 0) :
    selInv (advanceStep st).1 := by
  obtain ⟨h0, hle, hlt⟩ := h
  have hcnt := hlt hq
  unfold advanceStep
  repeat' split
  all_goals
    simp only [selInv, intGeSize, Bool.or_eq_true, decide_eq_true_eq] at *
    simp_all
    try omega

/-- Selection-invariant preservation for the BTN_LEFT branch. -/
lemma navLeft_selInv (jp : Bool) (st : AppState) (h : selInv st)
    (hq : st.quitting = 0) : selInv (navLeft jp st) := by
  obtain ⟨h0, hle, hlt⟩ := h
  have hcnt := hlt hq
  unfold navLeft
  repeat' split
  all_goals
    simp only [selInv, intGeSize, Bool.or_eq_true, decide_eq_true_eq] at *
    simp_all
    try omega

/-- Selection-invariant preservation for the BTN_RIGHT branch. -/
lemma navRight_selInv (jp : Bool) (st : AppState) (h : selInv st)
    (hq : st.quitting = 0) : selInv (navRight jp st) := by
  obtain ⟨h0, hle, hlt⟩ := h
  have hcnt := hlt hq
  unfold navRight
  repeat' split
  all_goals
    simp only [selInv, intGeSize, Bool.or_eq_true, decide_eq_true_eq] at *
    simp_all
    try omega

/-- Selection-invariant preservation for the button-release chain. -/
lemma buttonStep_selInv (b : String) (st : AppState) (h : selInv st) :
    selInv (buttonStep b st).1 := by
  obtain ⟨h0, hle, hlt⟩ := h
  unfold buttonStep
  repeat' split
  all_goals
    first
    | exact ⟨h0, hle, hlt⟩
    | exact ⟨h0, hle, fun hx => absurd hx one_ne_zero⟩

lemma advanceStep_snd_false_quitting (st : AppState)
    (h : (advanceStep st).2 = false) :
    (advanceStep st).1.quitting = st.quitting := by
  unfold advanceStep at *
  repeat' split at h
  all_goals simp_all

lemma scrollNavStep_selInv (speed : Nat) (ev : PadEvent) (st : AppState)
    (h : selInv st) (hq : st.quitting = 0) :
    selInv (scrollNavStep speed ev st) := by
  cases ev with
  | up =>
    have hp := scrollUpStep_items speed st
    simp only [scrollNavStep, selInv, hp.1, hp.2]
    exact h
  | down =>
    have hp := scrollDownStep_items speed st
    simp only [scrollNavStep, selInv, hp.1, hp.2]
    exact h
  | left jp => exact navLeft_selInv jp st h hq
  | right jp => exact navRight_selInv jp st h hq
  | idle => exact h
  | btnA => exact h
  | btnB => exact h
  | btnX => exact h
  | btnY => exact h

lemma handleInput_selInv (fs : String → Bool) (speed : Nat) (ev : PadEvent)
    (st : AppState) (h : selInv st) (hq : st.quitting = 0) :
    selInv (handleInput fs speed ev st).1 := by
  have hp := itemRecheck_preserves fs st
  have h1 : selInv (itemRecheck fs st) := by
    simp only [selInv, hp.1, hp.2.1, hp.2.2.1]
    exact h
  have hq1 : (itemRecheck fs st).quitting = 0 := by rw [hp.2.2.1]; exact hq
  unfold handleInput
  split
  · exact h1
  · split
    · split
      · exact advanceStep_selInv _ h1 hq1
      · next hret =>
        have h2 : selInv (advanceStep (itemRecheck fs st)).1 :=
          advanceStep_selInv _ h1 hq1
        have hq2 : (advanceStep (itemRecheck fs st)).1.quitting = 0 := by
          rw [advanceStep_snd_false_quitting _ (by simpa using hret)]
          exact hq1
        split
        · exact buttonStep_selInv _ _ h2
        · exact scrollNavStep_selInv speed ev _ h2 hq2
    · split
      · exact buttonStep_selInv _ _ h1
      · exact scrollNavStep_selInv speed ev _ h1 hq1

lemma stepOp_selInv (fs : String → Bool) (speed : Nat) (st : AppState)
    (op : FrameOp) (h : selInv st) : selInv (stepOp fs speed st op) := by
  cases op with
  | signal => exact h
  | input ev =>
    simp only [stepOp]
    split
    · next hq => exact handleInput_selInv fs speed ev st h hq
    · exact h
  | frame c v =>
    simp only [stepOp]
    split
    · have hp := recomputeScroll_preserves c v st
      simp only [selInv, hp.1, hp.2.1]
      exact h
    · exact h

/-! ## Claim C4 -/

/-- C4 counterexample: with a one-item catalog and quit-after-last set, a
single Next() (pressed right input) transitions to `Quitting(Success)`
but leaves `selectedIndex = 1 = itemCount`, outside `[0, itemCount-1]` —
refuting the claim that the bound holds after any Next/Previous/Advance
sequence for any quitAfterLast setting. -/
theorem C4_counterexample :
    (runOps (fun _ => false) 20 quitAfterLastState
        [FrameOp.input (PadEvent.right true)]).items_state.selected = 1 ∧
    (runOps (fun _ => false) 20 quitAfterLastState
        [FrameOp.input (PadEvent.right true)]).items_state.item_count = 1 ∧
    (runOps (fun _ => false) 20 quitAfterLastState
        [FrameOp.input (PadEvent.right true)]).quitting = 1 ∧
    ¬((runOps (fun _ => false) 20 quitAfterLastState
        [FrameOp.input (PadEvent.right true)]).items_state.selected ≤ 1 - 1) := by
  refine ⟨by decide, by decide, by decide, by decide⟩

/-- C4 (amended): for every catalog with `itemCount ≥ 1` and every finite
sequence of signal, input and recompute operations under any wrap and
quit-after-last policy, `selectedIndex` stays in `[0, itemCount]`, and in
`[0, itemCount-1]` whenever the run state is still running; only a
quit-after-last transition can leave the cursor at `itemCount`, with the
state already quitting. -/
theorem C4_selection_bound (fs : String → Bool) (speed : Nat)
    (st0 : AppState) (ops : List FrameOp) (h : selInv st0) :
    selInv (runOps fs speed st0 ops) := by
  induction ops generalizing st0 with
  | nil => exact h
  | cons op ops ih => exact ih _ (stepOp_selInv fs speed st0 op h)

theorem C4_selection_bound_witness :
    selInv (runOps (fun _ => false) 20 twoItemState
      [FrameOp.signal, FrameOp.input PadEvent.idle,
       FrameOp.input (PadEvent.left true), FrameOp.input (PadEvent.right true)]) :=
  C4_selection_bound (fun _ => false) 20 twoItemState
    [FrameOp.signal, FrameOp.input PadEvent.idle,
     FrameOp.input (PadEvent.left true), FrameOp.input (PadEvent.right true)]
    ⟨by decide, by decide, fun _ => by decide⟩

/-! ## Scroll-controller helper lemmas -/

lemma navLeft_scroll_cases (jp : Bool) (st : AppState) :
    (navLeft jp st).scroll_state = st.scroll_state ∨
    (navLeft jp st).scroll_state =
      { st.scroll_state with scroll_position := 0, scroll_to_bottom := true } := by
  unfold navLeft
  repeat' split
  all_goals simp

lemma scrollUpStep_posNonneg (speed : Nat) (st : AppState) (h : posNonneg st) :
    posNonneg (scrollUpStep speed st) := by
  obtain ⟨h0, hd⟩ := h
  unfold scrollUpStep
  split
  · exact ⟨le_max_left 0 _, fun hn => hd (by simpa using hn)⟩
  · exact ⟨h0, hd⟩

lemma scrollDownStep_posNonneg (speed : Nat) (st : AppState) (h : posNonneg st) :
    posNonneg (scrollDownStep speed st) := by
  obtain ⟨h0, hd⟩ := h
  unfold scrollDownStep
  split
  · next hn =>
    have hvc := hd hn
    refine ⟨?_, fun hn2 => hd (by simpa using hn2)⟩
    simp only
    rw [le_min_iff]
    constructor
    · omega
    · positivity
  · exact ⟨h0, hd⟩

lemma recomputeScroll_posNonneg (c v : Int) (st : AppState) (h : posNonneg st) :
    posNonneg (recomputeScroll c v st) := by
  obtain ⟨h0, hd⟩ := h
  unfold recomputeScroll
  split
  · next hcond =>
    simp only [Bool.and_eq_true, decide_eq_true_eq] at hcond
    exact ⟨show (0 : Int) ≤ c - v by omega, fun _ => by simpa using hcond.2⟩
  · refine ⟨h0, ?_⟩
    intro hn
    simp only [decide_eq_true_eq] at hn
    simpa using hn

lemma scrollNavStep_posNonneg (speed : Nat) (ev : PadEvent) (st : AppState)
    (h : posNonneg st) : posNonneg (scrollNavStep speed ev st) := by
  cases ev with
  | up => exact scrollUpStep_posNonneg speed st h
  | down => exact scrollDownStep_posNonneg speed st h
  | left jp =>
    rcases navLeft_scroll_cases jp st with hc | hc <;>
      · simp only [scrollNavStep, posNonneg, hc]
        first
        | exact h
        | exact ⟨le_refl 0, fun hn => h.2 (by simpa using hn)⟩
  | right jp =>
    simp only [scrollNavStep, posNonneg, navRight_scroll jp st]
    exact h
  | idle => exact h
  | btnA => exact h
  | btnB => exact h
  | btnX => exact h
  | btnY => exact h

lemma handleInput_posNonneg (fs : String → Bool) (speed : Nat) (ev : PadEvent)
    (st : AppState) (h : posNonneg st) :
    posNonneg (handleInput fs speed ev st).1 := by
  have hsc : (itemRecheck fs st).scroll_state = st.scroll_state :=
    (itemRecheck_preserves fs st).2.2.2.2.2.2.1
  have h1 : posNonneg (itemRecheck fs st) := by
    simp only [posNonneg, hsc]; exact h
  have h2 : posNonneg (advanceStep (itemRecheck fs st)).1 := by
    simp only [posNonneg, advanceStep_scroll, hsc]; exact h
  unfold handleInput
  split
  · exact h1
  · split
    · split
      · exact h2
      · split
        · next b _ =>
          simp only [posNonneg, buttonStep_scroll]
          exact h2
        · exact scrollNavStep_posNonneg speed ev _ h2
    · split
      · simp only [posNonneg, buttonStep_scroll]
        exact h1
      · exact scrollNavStep_posNonneg speed ev _ h1

lemma stepOp_posNonneg (fs : String → Bool) (speed : Nat) (st : AppState)
    (op : FrameOp) (h : posNonneg st) : posNonneg (stepOp fs speed st op) := by
  cases op with
  | signal => exact h
  | input ev =>
    simp only [stepOp]
    split
    · exact handleInput_posNonneg fs speed ev st h
    · exact h
  | frame c v =>
    simp only [stepOp]
    split
    · exact recomputeScroll_posNonneg c v st h
    · exact h

lemma runOps_posNonneg (fs : String → Bool) (speed : Nat) (st0 : AppState)
    (ops : List FrameOp) (h : posNonneg st0) :
    posNonneg (runOps fs speed st0 ops) := by
  induction ops generalizing st0 with
  | nil => exact h
  | cons op ops ih => exact ih _ (stepOp_posNonneg fs speed st0 op h)

lemma scrollUpStep_scrollInvFixed (c v : Int) (speed : Nat) (st : AppState)
    (h : scrollInvFixed c v st) : scrollInvFixed c v (scrollUpStep speed st) := by
  obtain ⟨h0, hub, hd⟩ := h
  unfold scrollUpStep
  split
  · refine ⟨le_max_left 0 _, ?_, fun hn => hd (by simpa using hn)⟩
    rw [max_le_iff]
    refine ⟨le_max_left 0 _, le_trans ?_ hub⟩
    have : (0 : Int) ≤ (speed : Int) := by positivity
    omega
  · exact ⟨h0, hub, hd⟩

lemma scrollDownStep_scrollInvFixed (c v : Int) (speed : Nat) (st : AppState)
    (h : scrollInvFixed c v st) : scrollInvFixed c v (scrollDownStep speed st) := by
  obtain ⟨h0, hub, hd⟩ := h
  unfold scrollDownStep
  split
  · next hn =>
    obtain ⟨hc, hv, hvc⟩ := hd hn
    refine ⟨?_, ?_, fun hn2 => hd (by simpa using hn2)⟩
    · simp only [hc, hv]
      rw [le_min_iff]
      constructor
      · omega
      · positivity
    · simp only [hc, hv]
      exact le_trans (min_le_left _ _) (le_max_right 0 _)
  · exact ⟨h0, hub, hd⟩

lemma recomputeScroll_scrollInvFixed (c v : Int) (st : AppState)
    (h : scrollInvFixed c v st) :
    scrollInvFixed c v (recomputeScroll c v st) := by
  obtain ⟨h0, hub, hd⟩ := h
  unfold recomputeScroll
  split
  · next hcond =>
    simp only [Bool.and_eq_true, decide_eq_true_eq] at hcond
    refine ⟨show (0 : Int) ≤ c - v by omega,
      show c - v ≤ max 0 (c - v) from le_max_right 0 _, ?_⟩
    intro _
    exact ⟨rfl, rfl, hcond.2⟩
  · refine ⟨h0, hub, ?_⟩
    intro hn
    simp only [decide_eq_true_eq] at hn
    exact ⟨rfl, rfl, hn⟩

lemma scrollNavStep_scrollInvFixed (c v : Int) (speed : Nat) (ev : PadEvent)
    (st : AppState) (h : scrollInvFixed c v st) :
    scrollInvFixed c v (scrollNavStep speed ev st) := by
  cases ev with
  | up => exact scrollUpStep_scrollInvFixed c v speed st h
  | down => exact scrollDownStep_scrollInvFixed c v speed st h
  | left jp =>
    rcases navLeft_scroll_cases jp st with hc | hc <;>
      · simp only [scrollNavStep, scrollInvFixed, hc]
        first
        | exact h
        | exact ⟨le_refl 0, le_max_left 0 _, fun hn => h.2.2 (by simpa using hn)⟩
  | right jp =>
    simp only [scrollNavStep, scrollInvFixed, navRight_scroll jp st]
    exact h
  | idle => exact h
  | btnA => exact h
  | btnB => exact h
  | btnX => exact h
  | btnY => exact h

lemma handleInput_scrollInvFixed (c v : Int) (fs : String → Bool) (speed : Nat)
    (ev : PadEvent) (st : AppState) (h : scrollInvFixed c v st) :
    scrollInvFixed c v (handleInput fs speed ev st).1 := by
  have hsc : (itemRecheck fs st).scroll_state = st.scroll_state :=
    (itemRecheck_preserves fs st).2.2.2.2.2.2.1
  have h1 : scrollInvFixed c v (itemRecheck fs st) := by
    simp only [scrollInvFixed, hsc]; exact h
  have h2 : scrollInvFixed c v (advanceStep (itemRecheck fs st)).1 := by
    simp only [scrollInvFixed, advanceStep_scroll, hsc]; exact h
  unfold handleInput
  split
  · exact h1
  · split
    · split
      · exact h2
      · split
        · simp only [scrollInvFixed, buttonStep_scroll]
          exact h2
        · exact scrollNavStep_scrollInvFixed c v speed ev _ h2
    · split
      · simp only [scrollInvFixed, buttonStep_scroll]
        exact h1
      · exact scrollNavStep_scrollInvFixed c v speed ev _ h1

lemma stepOp_scrollInvFixed (c v : Int) (fs : String → Bool) (speed : Nat)
    (st : AppState) (op : FrameOp) (hop : opUsesDims c v op)
    (h : scrollInvFixed c v st) : scrollInvFixed c v (stepOp fs speed st op) := by
  cases op with
  | signal => exact h
  | input ev =>
    simp only [stepOp]
    split
    · exact handleInput_scrollInvFixed c v fs speed ev st h
    · exact h
  | frame c' v' =>
    obtain ⟨rfl, rfl⟩ := hop
    simp only [stepOp]
    split
    · exact recomputeScroll_scrollInvFixed c' v' st h
    · exact h

lemma runOps_scrollInvFixed (c v : Int) (fs : String → Bool) (speed : Nat)
    (st0 : AppState) (ops : List FrameOp) (hops : ∀ op ∈ ops, opUsesDims c v op)
    (h : scrollInvFixed c v st0) :
    scrollInvFixed c v (runOps fs speed st0 ops) := by
  induction ops generalizing st0 with
  | nil => exact h
  | cons op ops ih =>
    exact ih _ (fun o ho => hops o (List.mem_cons_of_mem op ho))
      (stepOp_scrollInvFixed c v fs speed st0 op (hops op (List.mem_cons_self op ops)) h)

/-! ## Claim C5 -/

/-- C5 counterexample: starting from the initial state, a recompute on a
tall item (content 200, viewport 100) jumps the position to 100; a
right-navigation does not reset it; the next recompute on a short item
(content 50, viewport 100) neither resets nor clamps.  The resulting state
has `position = 100 > 0 = max 0 (contentHeight − viewportHeight)`,
refuting the claim that the clamp holds after every operation. -/
theorem C5_counterexample :
    (runOps (fun _ => false) 20 twoItemState
        [FrameOp.frame 200 100, FrameOp.input (PadEvent.right true),
         FrameOp.frame 50 100]).scroll_state.scroll_position = 100 ∧
    (runOps (fun _ => false) 20 twoItemState
        [FrameOp.frame 200 100, FrameOp.input (PadEvent.right true),
         FrameOp.frame 50 100]).scroll_state.content_height = 50 ∧
    (runOps (fun _ => false) 20 twoItemState
        [FrameOp.frame 200 100, FrameOp.input (PadEvent.right true),
         FrameOp.frame 50 100]).scroll_state.viewport_height = 100 ∧
    ¬((runOps (fun _ => false) 20 twoItemState
        [FrameOp.frame 200 100, FrameOp.input (PadEvent.right true),
         FrameOp.frame 50 100]).scroll_state.scroll_position ≤
          max 0 ((50 : Int) - 100)) := by
  refine ⟨by decide, by decide, by decide, by decide⟩

/-- C5 (amended): starting from the initial scroll state, after every
finite sequence of scroll, navigation, signal and recompute operations
the position is nonnegative; and when every recompute in the sequence uses
one fixed (contentHeight, viewportHeight) pair, the full clamp
`0 ≤ position ≤ max 0 (contentHeight − viewportHeight)` holds after the
sequence (hence after every prefix).  With changing dimensions the upper
bound can fail, because right-navigation does not reset the position and
the recompute never clamps it. -/
theorem C5_scroll_clamp (fs : String → Bool) (speed : Nat) (st0 : AppState)
    (ops : List FrameOp)
    (hp : st0.scroll_state.scroll_position = 0)
    (hn : st0.scroll_state.needs_scroll = false) :
    0 ≤ (runOps fs speed st0 ops).scroll_state.scroll_position ∧
    (∀ c v : Int, (∀ op ∈ ops, opUsesDims c v op) →
      0 ≤ (runOps fs speed st0 ops).scroll_state.scroll_position ∧
      (runOps fs speed st0 ops).scroll_state.scroll_position ≤ max 0 (c - v)) := by
  constructor
  · exact (runOps_posNonneg fs speed st0 ops
      ⟨by omega, fun hh => absurd (hn ▸ hh) (by simp)⟩).1
  · intro c v hops
    have := runOps_scrollInvFixed c v fs speed st0 ops hops
      ⟨by omega, by rw [hp]; exact le_max_left 0 _,
        fun hh => absurd (hn ▸ hh) (by simp)⟩
    exact ⟨this.1, this.2.1⟩

theorem C5_scroll_clamp_witness :
    0 ≤ (runOps (fun _ => false) 20 twoItemState
        [FrameOp.frame 200 100, FrameOp.input PadEvent.down,
         FrameOp.input PadEvent.up]).scroll_state.scroll_position ∧
    (runOps (fun _ => false) 20 twoItemState
        [FrameOp.frame 200 100, FrameOp.input PadEvent.down,
         FrameOp.input PadEvent.up]).scroll_state.scroll_position ≤
      max 0 ((200 : Int) - 100) :=
  (C5_scroll_clamp (fun _ => false) 20 twoItemState
      [FrameOp.frame 200 100, FrameOp.input PadEvent.down,
       FrameOp.input PadEvent.up] rfl rfl).2 200 100
    (by
      intro op hop
      simp only [List.mem_cons, List.not_mem_nil, or_false] at hop
      rcases hop with rfl | rfl | rfl
      · exact ⟨rfl, rfl⟩
      · trivial
      · trivial)

/-! ## Claim C6 -/

lemma handleInput_left_change_scroll (fs : String → Bool) (speed : Nat)
    (st : AppState) (jp : Bool) (hpend : st.pending_advance = false)
    (h0 : 0 ≤ st.items_state.selected)
    (hchg : (handleInput fs speed (PadEvent.left jp) st).1.items_state.selected ≠
      st.items_state.selected) :
    (handleInput fs speed (PadEvent.left jp) st).1.scroll_state.scroll_position = 0 ∧
    (handleInput fs speed (PadEvent.left jp) st).1.scroll_state.scroll_to_bottom = true := by
  have hp := itemRecheck_preserves fs st
  unfold handleInput at hchg ⊢
  by_cases hto : (itemRecheck fs st).timeout_seconds < 0
  · rw [if_pos hto] at hchg ⊢
    exact absurd hp.1 hchg
  · rw [if_neg hto] at hchg ⊢
    rw [if_neg (by rw [hp.2.2.2.2.1, hpend]; simp)] at hchg ⊢
    dsimp only [buttonName, scrollNavStep] at hchg ⊢
    unfold navLeft at hchg ⊢
    by_cases hstay :
        (decide ((itemRecheck fs st).items_state.selected = 0) && !jp) = true
    · rw [if_pos hstay] at hchg ⊢
      exact absurd hp.1 hchg
    · rw [if_neg hstay] at hchg ⊢
      by_cases hneg : (itemRecheck fs st).items_state.selected - 1 < 0
      · rw [if_pos hneg] at hchg ⊢
        by_cases hnw : (itemRecheck fs st).no_wrap = true
        · rw [if_pos hnw] at hchg ⊢
          exfalso
          rw [hp.1] at hneg
          exact hchg (show (0 : Int) = st.items_state.selected by omega)
        · rw [if_neg hnw] at hchg ⊢
          exact ⟨rfl, rfl⟩
      · rw [if_neg hneg] at hchg ⊢
        exact ⟨rfl, rfl⟩

lemma handleInput_right_scroll (fs : String → Bool) (speed : Nat)
    (st : AppState) (jp : Bool) :
    (handleInput fs speed (PadEvent.right jp) st).1.scroll_state =
      st.scroll_state := by
  have hsc : (itemRecheck fs st).scroll_state = st.scroll_state :=
    (itemRecheck_preserves fs st).2.2.2.2.2.2.1
  unfold handleInput
  by_cases hto : (itemRecheck fs st).timeout_seconds < 0
  · rw [if_pos hto]
    exact hsc
  · rw [if_neg hto]
    by_cases hpend : (itemRecheck fs st).pending_advance = true
    · rw [if_pos hpend]
      by_cases hret : (advanceStep (itemRecheck fs st)).2 = true
      · rw [if_pos hret]
        rw [advanceStep_scroll]
        exact hsc
      · rw [if_neg hret]
        dsimp only [buttonName, scrollNavStep]
        rw [navRight_scroll, advanceStep_scroll]
        exact hsc
    · rw [if_neg hpend]
      dsimp only [buttonName, scrollNavStep]
      rw [navRight_scroll]
      exact hsc

lemma recomputeScroll_flag_spec (c v : Int) (st : AppState) :
    (st.scroll_state.scroll_to_bottom = true → v < c →
      (recomputeScroll c v st).scroll_state.scroll_position = c - v ∧
      (recomputeScroll c v st).scroll_state.scroll_to_bottom = false) ∧
    (¬(v < c) →
      (recomputeScroll c v st).scroll_state.scroll_position =
        st.scroll_state.scroll_position ∧
      (recomputeScroll c v st).scroll_state.scroll_to_bottom =
        st.scroll_state.scroll_to_bottom ∧
      (recomputeScroll c v st).scroll_state.needs_scroll = false) := by
  constructor
  · intro hf hvc
    unfold recomputeScroll
    rw [if_pos (by simp [hf, hvc])]
    exact ⟨rfl, rfl⟩
  · intro hvc
    unfold recomputeScroll
    rw [if_neg (by simp [hvc])]
    exact ⟨rfl, rfl, by simp [hvc]⟩

/-- C6 counterexample: a right-navigation item change (index 0 → 1) with
stale scroll position 5 leaves the position at 5 and the one-shot flag
clear, refuting the claim that every navigation item change resets the
position to 0 and sets `PendingJumpToBottom`. -/
theorem C6_counterexample :
    (handleInput (fun _ => false) 20 (PadEvent.right true)
        scrolledState).1.items_state.selected = 1 ∧
    scrolledState.items_state.selected = 0 ∧
    (handleInput (fun _ => false) 20 (PadEvent.right true)
        scrolledState).1.scroll_state.scroll_position = 5 ∧
    (handleInput (fun _ => false) 20 (PadEvent.right true)
        scrolledState).1.scroll_state.scroll_to_bottom = false := by
  refine ⟨by decide, by decide, by decide, by decide⟩

/-- C6 (amended): only a left-navigation item change resets the scroll
position to 0 and sets the one-shot jump-to-bottom flag; a right-navigation
input never touches the scroll state at all.  On a recompute with the flag
set and content needing scrolling, the position becomes
`contentHeight − viewportHeight` and the flag clears; when the content does
not need scrolling, the recompute leaves both the position and the flag
unchanged (the flag is not cleared). -/
theorem C6_item_change_scroll :
    (∀ (fs : String → Bool) (speed : Nat) (st : AppState) (jp : Bool),
      st.pending_advance = false →
      0 ≤ st.items_state.selected →
      (handleInput fs speed (PadEvent.left jp) st).1.items_state.selected ≠
        st.items_state.selected →
      (handleInput fs speed (PadEvent.left jp) st).1.scroll_state.scroll_position = 0 ∧
      (handleInput fs speed (PadEvent.left jp) st).1.scroll_state.scroll_to_bottom = true) ∧
    (∀ (fs : String → Bool) (speed : Nat) (st : AppState) (jp : Bool),
      (handleInput fs speed (PadEvent.right jp) st).1.scroll_state =
        st.scroll_state) ∧
    (∀ (c v : Int) (st : AppState),
      (st.scroll_state.scroll_to_bottom = true → v < c →
        (recomputeScroll c v st).scroll_state.scroll_position = c - v ∧
        (recomputeScroll c v st).scroll_state.scroll_to_bottom = false) ∧
      (¬(v < c) →
        (recomputeScroll c v st).scroll_state.scroll_position =
          st.scroll_state.scroll_position ∧
        (recomputeScroll c v st).scroll_state.scroll_to_bottom =
          st.scroll_state.scroll_to_bottom ∧
        (recomputeScroll c v st).scroll_state.needs_scroll = false)) :=
  ⟨handleInput_left_change_scroll, handleInput_right_scroll,
    recomputeScroll_flag_spec⟩

theorem C6_item_change_scroll_witness :
    (handleInput (fun _ => false) 20 (PadEvent.left true)
        leftNavState).1.scroll_state.scroll_position = 0 ∧
    (handleInput (fun _ => false) 20 (PadEvent.left true)
        leftNavState).1.scroll_state.scroll_to_bottom = true :=
  C6_item_change_scroll.1 (fun _ => false) 20 leftNavState true rfl
    (by decide) (by decide)

/-! ## Claim C3 -/

/-- C3 counterexample: in a display-only frame (`timeoutSeconds = -1`)
with the advance flag pending, `handle_input` neither advances the
selection nor consumes the flag — the early return precedes the signal
check — refuting the claim that advance-signal navigation is still
performed in such frames. -/
theorem C3_counterexample :
    displayOnlyState.timeout_seconds < 0 ∧
    displayOnlyState.pending_advance = true ∧
    (handleInput (fun _ => false) 20 PadEvent.idle
        displayOnlyState).1.items_state.selected =
      displayOnlyState.items_state.selected ∧
    (handleInput (fun _ => false) 20 PadEvent.idle
        displayOnlyState).1.pending_advance = true := by
  refine ⟨by decide, by decide, by decide, by decide⟩

/-- C3 (amended): in every frame with `timeoutSeconds < 0`, `handle_input`
performs only the lazy background-image existence re-check and returns:
button classification is skipped, but so is advance-signal navigation —
the selection, the pending flag and the run state are all left unchanged,
while the re-check still promotes `imageExists` (and requests a redraw)
when the file has appeared. -/
theorem C3_display_only (fs : String → Bool) (speed : Nat) (ev : PadEvent)
    (st : AppState) (h : st.timeout_seconds < 0) :
    handleInput fs speed ev st = (itemRecheck fs st, []) ∧
    (itemRecheck fs st).items_state.selected = st.items_state.selected ∧
    (itemRecheck fs st).pending_advance = st.pending_advance ∧
    (itemRecheck fs st).quitting = st.quitting ∧
    (itemRecheck fs st).exit_code = st.exit_code ∧
    (∀ it path,
      st.items_state.items.get? st.items_state.selected.toNat = some it →
      it.background_image = some path → it.image_exists = false →
      fs path = true →
      (itemRecheck fs st).redraw = 1 ∧
      (itemRecheck fs st).items_state.items.get? st.items_state.selected.toNat =
        some { it with image_exists := true }) := by
  have hp := itemRecheck_preserves fs st
  refine ⟨?_, hp.1, hp.2.2.2.2.1, hp.2.2.1, hp.2.2.2.1, ?_⟩
  · unfold handleInput
    rw [if_pos (by rw [hp.2.2.2.2.2.1]; exact h)]
  · intro it path hit hbg himg hfs
    have hlt : st.items_state.selected.toNat < st.items_state.items.length := by
      obtain ⟨hl, -⟩ := List.get?_eq_some.1 hit
      exact hl
    unfold itemRecheck
    rw [hit]
    dsimp only
    rw [hbg]
    dsimp only
    rw [if_pos (by simp [himg, hfs])]
    refine ⟨rfl, ?_⟩
    dsimp only
    rw [List.get?_eq_getElem?]
    exact List.getElem?_set_eq_of_lt _ hlt

theorem C3_display_only_witness :
    handleInput (fun _ => false) 20 PadEvent.idle displayOnlyState =
      (itemRecheck (fun _ => false) displayOnlyState, []) ∧
    (itemRecheck (fun _ => false) displayOnlyState).pending_advance =
      displayOnlyState.pending_advance :=
  ⟨(C3_display_only (fun _ => false) 20 PadEvent.idle displayOnlyState
      (by decide)).1,
   (C3_display_only (fun _ => false) 20 PadEvent.idle displayOnlyState
      (by decide)).2.2.1⟩

/-! ## Claim C2 -/

lemma itemRecheck_pending_comm (fs : String → Bool) (st : AppState) :
    itemRecheck fs { st with pending_advance := true } =
      { itemRecheck fs st with pending_advance := true } := by
  unfold itemRecheck
  dsimp only
  repeat' split
  all_goals rfl

lemma advanceStep_pending (x : AppState) :
    advanceStep { x with pending_advance := true } = advanceStep x := by
  unfold advanceStep
  dsimp only

/-- Core comparison between the SIGUSR1 advance block and a pressed
right-navigation on the same state, outside the NoWrap-at-last divergence. -/
lemma advance_navRight_core (x : AppState)
    (hexcl : ¬(x.no_wrap = true ∧
      intGeSize (x.items_state.selected + 1) x.items_state.item_count = true ∧
      x.quit_after_last_item = false)) :
    navOutcome (advanceStep x).1 = navOutcome (navRight true x) := by
  unfold advanceStep navRight
  rw [if_neg (show ¬(intEqSizePred x.items_state.selected
      x.items_state.item_count && !true) = true by simp)]
  by_cases hge :
      intGeSize (x.items_state.selected + 1) x.items_state.item_count = true
  · rw [if_pos hge, if_pos hge]
    by_cases hq : x.quit_after_last_item = true
    · rw [if_pos hq, if_pos hq]
      rfl
    · have hnw : x.no_wrap = false := by
        rcases Bool.eq_false_or_eq_true x.no_wrap with hh | hh
        · exact absurd ⟨hh, hge, by simpa using hq⟩ hexcl
        · exact hh
      rw [if_neg hq, if_neg hq, if_neg (show ¬x.no_wrap = true by simp [hnw])]
      rfl
  · rw [if_neg hge, if_neg hge]
    rfl

/-- C2 counterexample: two items, NoWrap, cursor on the last item,
quit-after-last unset.  Consuming a pending advance signal wraps the
cursor to 0, while a pressed right-navigation leaves it at the last
index — refuting the claim that the advance signal behaves exactly like
`Next()` for every wrap policy. -/
theorem C2_counterexample :
    noWrapLastState.no_wrap = true ∧
    noWrapLastState.quit_after_last_item = false ∧
    noWrapLastState.items_state.selected = 1 ∧
    (handleInput (fun _ => false) 20 PadEvent.idle
        { noWrapLastState with pending_advance := true }).1.items_state.selected = 0 ∧
    (handleInput (fun _ => false) 20 (PadEvent.right true)
        noWrapLastState).1.items_state.selected = 1 := by
  refine ⟨by decide, by decide, by decide, by decide, by decide⟩

/-- C2 (amended): consuming a pending advance-signal request yields the
same selection and run-state outcome (selectedIndex, quitting, exit code)
as one pressed right-navigation `Next()` input, except under the NoWrap
policy at the last index with quit-after-last unset: there the signal
wraps the cursor to index 0 while `Next()` stays at the last index — the
signal path never consults the NoWrap policy. -/
theorem C2_advance_vs_next :
    (∀ (fs : String → Bool) (speed : Nat) (st : AppState),
      st.pending_advance = false →
      ¬(st.no_wrap = true ∧
          intGeSize (st.items_state.selected + 1) st.items_state.item_count = true ∧
          st.quit_after_last_item = false) →
      navOutcome (handleInput fs speed PadEvent.idle
          { st with pending_advance := true }).1 =
        navOutcome (handleInput fs speed (PadEvent.right true) st).1) ∧
    (∀ (fs : String → Bool) (speed : Nat) (st : AppState),
      st.pending_advance = false →
      0 ≤ st.timeout_seconds →
      st.no_wrap = true →
      intGeSize (st.items_state.selected + 1) st.items_state.item_count = true →
      st.quit_after_last_item = false →
      (handleInput fs speed PadEvent.idle
          { st with pending_advance := true }).1.items_state.selected = 0 ∧
      (handleInput fs speed (PadEvent.right true) st).1.items_state.selected =
        (st.items_state.item_count : Int) - 1) := by
  constructor
  · intro fs speed st hpend hexcl
    have hp := itemRecheck_preserves fs st
    have hcomm := itemRecheck_pending_comm fs st
    unfold handleInput
    rw [hcomm]
    by_cases hto : (itemRecheck fs st).timeout_seconds < 0
    · rw [if_pos (show ({ itemRecheck fs st with pending_advance := true } :
          AppState).timeout_seconds < 0 from hto), if_pos hto]
      rfl
    · rw [if_neg (show ¬({ itemRecheck fs st with pending_advance := true } :
          AppState).timeout_seconds < 0 from hto), if_neg hto]
      rw [if_pos (show ({ itemRecheck fs st with pending_advance := true } :
          AppState).pending_advance = true from rfl)]
      rw [if_neg (show ¬(itemRecheck fs st).pending_advance = true by
        rw [hp.2.2.2.2.1, hpend]; simp)]
      rw [advanceStep_pending]
      dsimp only [buttonName, scrollNavStep]
      rw [ite_self]
      exact advance_navRight_core (itemRecheck fs st) (by
        rw [hp.1, hp.2.1, hp.2.2.2.2.2.2.2.2.2.2.2.1,
          hp.2.2.2.2.2.2.2.2.2.2.2.2]
        exact hexcl)
  · intro fs speed st hpend hto0 hnw hge hq
    have hp := itemRecheck_preserves fs st
    have hcomm := itemRecheck_pending_comm fs st
    have hge1 : intGeSize ((itemRecheck fs st).items_state.selected + 1)
        (itemRecheck fs st).items_state.item_count = true := by
      rw [hp.1, hp.2.1]; exact hge
    have hq1 : (itemRecheck fs st).quit_after_last_item = false := by
      rw [hp.2.2.2.2.2.2.2.2.2.2.2.2]; exact hq
    have hnw1 : (itemRecheck fs st).no_wrap = true := by
      rw [hp.2.2.2.2.2.2.2.2.2.2.2.1]; exact hnw
    have hto1 : ¬(itemRecheck fs st).timeout_seconds < 0 := by
      rw [hp.2.2.2.2.2.1]; omega
    constructor
    · unfold handleInput
      rw [hcomm]
      rw [if_neg (show ¬({ itemRecheck fs st with pending_advance := true } :
          AppState).timeout_seconds < 0 from hto1)]
      rw [if_pos (show ({ itemRecheck fs st with pending_advance := true } :
          AppState).pending_advance = true from rfl)]
      rw [advanceStep_pending]
      unfold advanceStep
      rw [if_pos hge1, if_neg (show ¬(itemRecheck fs st).quit_after_last_item =
        true by simp [hq1])]
      dsimp only [buttonName, scrollNavStep]
      rw [if_neg (show ¬(false = true) by simp)]
    · unfold handleInput
      rw [if_neg hto1]
      rw [if_neg (show ¬(itemRecheck fs st).pending_advance = true by
        rw [hp.2.2.2.2.1, hpend]; simp)]
      dsimp only [buttonName, scrollNavStep]
      unfold navRight
      rw [if_neg (show ¬(intEqSizePred (itemRecheck fs st).items_state.selected
          (itemRecheck fs st).items_state.item_count && !true) = true by simp)]
      rw [if_pos hge1]
      rw [if_neg (show ¬(itemRecheck fs st).quit_after_last_item = true by
        simp [hq1])]
      rw [if_pos hnw1]
      dsimp only
      rw [hp.2.1]

theorem C2_advance_vs_next_witness :
    navOutcome (handleInput (fun _ => false) 20 PadEvent.idle
        { twoItemState with pending_advance := true }).1 =
      navOutcome (handleInput (fun _ => false) 20 (PadEvent.right true)
        twoItemState).1 :=
  C2_advance_vs_next.1 (fun _ => false) 20 twoItemState rfl (by decide)

/-! ## Claim C1 -/

/-- C1 counterexample: with Confirm bound to A and `selectedIndex = 0`,
releasing A prints `1` and a newline, but the exit code is 14
(`ExitCodeConfirmButton`), not 0 (`ExitCodeSuccess`) — refuting the
claim's "terminates with exit code 0". -/
theorem C1_counterexample :
    (handleInput (fun _ => false) 20 PadEvent.btnA baseState).2 = ["1\n"] ∧
    (handleInput (fun _ => false) 20 PadEvent.btnA baseState).1.quitting = 1 ∧
    (handleInput (fun _ => false) 20 PadEvent.btnA baseState).1.exit_code = 14 ∧
    (handleInput (fun _ => false) 20 PadEvent.btnA baseState).1.exit_code ≠
      exitCodeSuccess := by
  refine ⟨by decide, by decide, by decide, by decide⟩

/-- C1 (amended): for every catalog with `selectedIndex = k`, when the
physical button bound to the Confirm role is released (the role being
bound regardless of its visibility flag — the classification never reads
the show flags), the program prints exactly `k+1` followed by a newline to
standard output and transitions to quitting with exit code 14
(`ExitCodeConfirmButton`), not 0. -/
theorem C1_confirm_output (fs : String → Bool) (speed : Nat) (st : AppState)
    (ev : PadEvent) (b : String)
    (hb : buttonName ev = some b)
    (hto : 0 ≤ st.timeout_seconds)
    (hpend : st.pending_advance = false)
    (hact : ¬st.action_button = b)
    (hconf : st.confirm_button = b)
    (h0 : 0 ≤ st.items_state.selected)
    (hlt : st.items_state.selected < (st.items_state.item_count : Int)) :
    (handleInput fs speed ev st).2 =
      [toString (st.items_state.selected + 1) ++ "\n"] ∧
    (handleInput fs speed ev st).1.quitting = 1 ∧
    (handleInput fs speed ev st).1.exit_code = exitCodeConfirmButton := by
  have hp := itemRecheck_preserves fs st
  unfold handleInput
  rw [if_neg (show ¬(itemRecheck fs st).timeout_seconds < 0 by
    rw [hp.2.2.2.2.2.1]; omega)]
  rw [if_neg (show ¬(itemRecheck fs st).pending_advance = true by
    rw [hp.2.2.2.2.1, hpend]; simp)]
  rw [hb]
  dsimp only
  unfold buttonStep
  rw [if_neg (show ¬(itemRecheck fs st).action_button = b by
    rw [hp.2.2.2.2.2.2.2.1]; exact hact)]
  rw [if_pos (show (itemRecheck fs st).confirm_button = b by
    rw [hp.2.2.2.2.2.2.2.2.1]; exact hconf)]
  rw [if_pos (show 0 ≤ (itemRecheck fs st).items_state.selected ∧
      (itemRecheck fs st).items_state.selected <
        ((itemRecheck fs st).items_state.item_count : Int) by
    rw [hp.1, hp.2.1]; exact ⟨h0, hlt⟩)]
  refine ⟨?_, rfl, rfl⟩
  rw [hp.1]

theorem C1_confirm_output_witness :
    (handleInput (fun _ => false) 20 PadEvent.btnA baseState).2 =
      [toString (baseState.items_state.selected + 1) ++ "\n"] ∧
    (handleInput (fun _ => false) 20 PadEvent.btnA baseState).1.quitting = 1 ∧
    (handleInput (fun _ => false) 20 PadEvent.btnA
        baseState).1.exit_code = exitCodeConfirmButton :=
  C1_confirm_output (fun _ => false) 20 baseState PadEvent.btnA "A" rfl
    (by decide) rfl (by decide) rfl (by decide) (by decide)

end MinuiPresenter
